import Mathlib

/-!
Verification of the mood-based track recommender.

Shallow embedding of the core logic of the repository:
  - spotify/models.py   (MoodPreset, AudioFeatures, Playlist, mood score)
  - spotify/client.py   (response parsing, batch-size validation, playlist creation)
  - spotify/service.py  (RecommendationService: library/search ladder, playlist export)
  - app.py              (mood parsing from text, score_track_match, filter_tracks_by_mood,
                         the search fallback ladder of get_recommendations)

Python floats are modelled as rationals (ℚ); `float('inf')` as ⊤ in `WithTop ℚ`.
A raised exception from the remote gateway is modelled as `Option.none` from the
gateway oracle; a raised validation error of the service is the `Except.error`
branch.  Decimal constants of the source are stored as rationals in lowest terms
so that comparisons on them are kernel-computable.
-/

namespace MoodRec

/-! ### Decimal constants appearing in the source tables -/

/-- 0.2 -/
def q02 : ℚ := ⟨1, 5, by norm_num, by norm_num⟩
/-- 0.3 -/
def q03 : ℚ := ⟨3, 10, by norm_num, by norm_num⟩
/-- 0.4 -/
def q04 : ℚ := ⟨2, 5, by norm_num, by norm_num⟩
/-- 0.5 -/
def q05 : ℚ := ⟨1, 2, by norm_num, by norm_num⟩
/-- 0.6 -/
def q06 : ℚ := ⟨3, 5, by norm_num, by norm_num⟩
/-- 0.7 -/
def q07 : ℚ := ⟨7, 10, by norm_num, by norm_num⟩
/-- 0.8 -/
def q08 : ℚ := ⟨4, 5, by norm_num, by norm_num⟩
/-- 0.9 -/
def q09 : ℚ := ⟨9, 10, by norm_num, by norm_num⟩

/-! ### models.py -/

/-- `MoodPreset` (models.py).  Audio feature targets for a mood. -/
structure MoodPreset where
  name : String
  valence : ℚ
  energy : ℚ
  danceability : ℚ
  tempo : ℚ
  description : String
deriving DecidableEq

/-- Target feature dictionary (`Dict[str, float]`): each key may be absent. -/
structure FeatDict where
  valence? : Option ℚ
  energy? : Option ℚ
  danceability? : Option ℚ
  tempo? : Option ℚ
deriving DecidableEq

/-- `MoodPreset.to_dict` (models.py): all four keys present. -/
def MoodPreset.to_dict (p : MoodPreset) : FeatDict :=
  ⟨some p.valence, some p.energy, some p.danceability, some p.tempo⟩

/-- `AudioFeatures` (models.py). -/
structure AudioFeatures where
  track_id : String
  valence : ℚ
  energy : ℚ
  danceability : ℚ
  tempo : ℚ
deriving DecidableEq

/-- `AudioFeatures.__post_init__` (models.py): construction with validation.
A `ValueError` is the `.error` branch.  Note that only valence, energy and
danceability are range-checked; tempo is not. -/
def AudioFeatures.make (track_id : String) (valence energy danceability tempo : ℚ) :
    Except String AudioFeatures :=
  if ¬ (0 ≤ valence ∧ valence ≤ 1) then .error "Valence must be between 0 and 1"
  else if ¬ (0 ≤ energy ∧ energy ≤ 1) then .error "Energy must be between 0 and 1"
  else if ¬ (0 ≤ danceability ∧ danceability ≤ 1) then .error "Danceability must be between 0 and 1"
  else .ok ⟨track_id, valence, energy, danceability, tempo⟩

/-- `AudioFeatures.calculate_mood_score` (models.py): weighted absolute
differences; the `dict.get(key, default)` defaults apply to the target dict. -/
def AudioFeatures.calculate_mood_score (f : AudioFeatures) (target_features : FeatDict) : ℚ :=
  |f.valence - target_features.valence?.getD q05| * 2
    + |f.energy - target_features.energy?.getD q05| * (3 / 2)
    + |f.danceability - target_features.danceability?.getD q05| * (3 / 2)
    + |f.tempo - target_features.tempo?.getD 120| / 100

/-- `Playlist` (models.py).  Mutable; `track_ids` defaults to `[]`. -/
structure Playlist where
  playlist_id : String
  name : String
  owner_id : String
  description : String
  is_public : Bool
  spotify_url : Option String
  track_ids : List String
deriving DecidableEq

/-- `Playlist.add_track` (models.py): appends only when the id is not present. -/
def Playlist.add_track (p : Playlist) (track_id : String) : Playlist :=
  if track_id ∈ p.track_ids then p
  else { p with track_ids := p.track_ids ++ [track_id] }

/-- `DEFAULT_MOOD_PRESETS["Happy"]` (models.py). -/
def happyPreset : MoodPreset := ⟨"Happy", q08, q07, q07, 120, "Upbeat and joyful vibes"⟩
/-- `DEFAULT_MOOD_PRESETS["Chill"]` (models.py). -/
def chillPreset : MoodPreset := ⟨"Chill", q05, q03, q04, 90, "Relaxed and mellow tunes"⟩
/-- `DEFAULT_MOOD_PRESETS["Focus"]` (models.py). -/
def focusPreset : MoodPreset := ⟨"Focus", q04, q04, q03, 100, "Concentration-enhancing beats"⟩
/-- `DEFAULT_MOOD_PRESETS["Sad"]` (models.py). -/
def sadPreset : MoodPreset := ⟨"Sad", q02, q03, q03, 80, "Melancholic and introspective"⟩
/-- `DEFAULT_MOOD_PRESETS["Hype"]` (models.py). -/
def hypePreset : MoodPreset := ⟨"Hype", q07, q09, q08, 140, "High-energy pump-up tracks"⟩
/-- `DEFAULT_MOOD_PRESETS["Romantic"]` (models.py). -/
def romanticPreset : MoodPreset := ⟨"Romantic", q06, q04, q05, 95, "Love songs and sweet melodies"⟩

/-! ### client.py -/

/-- `Track` (models.py), restricted to the fields the verified logic uses
(title/URL/album fields are presentation-only). -/
structure Track where
  track_id : String
  name : String
  artists : List String
deriving DecidableEq

/-- A raw audio-features entry of the provider response (`data` in
`SpotifyClient.get_audio_features`); every key may be absent. -/
structure RawAudioFeatures where
  id? : Option String
  valence? : Option ℚ
  energy? : Option ℚ
  danceability? : Option ℚ
  tempo? : Option ℚ
deriving DecidableEq

/-- The per-entry parsing step of `SpotifyClient.get_audio_features` (client.py,
lines 299-305): `data.get("valence", 0.5)` etc., then the validating
`AudioFeatures` constructor. -/
def parse_audio_features (data : RawAudioFeatures) : Except String AudioFeatures :=
  AudioFeatures.make (data.id?.getD "") (data.valence?.getD q05) (data.energy?.getD q05)
    (data.danceability?.getD q05) (data.tempo?.getD 120)

/-- Raw provider response of `sp.user_playlist_create`. -/
structure RawPlaylist where
  id : String
  name : String
  url? : Option String
deriving DecidableEq

/-- Gateway oracle standing for `SpotifyClient` as the service sees it.
`none` models a raised exception of the call. -/
structure SpotifyGateway where
  audio_features : List String → Option (List AudioFeatures)
  tracks : List String → Option (List Track)
  search : String → ℕ → Option (List Track)
  playlist_create : String → String → Bool → String → RawPlaylist

/-- `SpotifyClient.create_playlist` (client.py): builds a `Playlist` from the
raw response; `track_ids` is left at its default `[]`. -/
def client_create_playlist (gw : SpotifyGateway) (user_id name description : String)
    (is_public : Bool) : Playlist :=
  let d := gw.playlist_create user_id name is_public description
  ⟨d.id, d.name, user_id, description, is_public, d.url?, []⟩

/-- A conforming gateway returns at most one `Track` per requested id
(`sp.tracks` answers the requested ids, malformed entries are dropped). -/
def SpotifyGateway.Conforms (gw : SpotifyGateway) : Prop :=
  ∀ ids ts, gw.tracks ids = some ts → ts.length ≤ ids.length

/-! ### Text helpers (Python `str.lower`, `in`, `str.capitalize`) -/

/-- Bool test whether the first list is an initial segment of the second. -/
def startsWithChars : List Char → List Char → Bool
  | [], _ => true
  | _ :: _, [] => false
  | a :: as, b :: bs => a == b && startsWithChars as bs

/-- Substring containment on character lists (Python `needle in hay`). -/
def charsContain (needle : List Char) : List Char → Bool
  | [] => needle.isEmpty
  | c :: rest => startsWithChars needle (c :: rest) || charsContain needle rest

/-- Python `needle in hay` on strings. -/
def strContains (hay needle : String) : Bool :=
  charsContain needle.data hay.data

/-- Python `str.lower`. -/
def pyLower (s : String) : String :=
  String.mk (s.data.map Char.toLower)

/-- Python `str.capitalize`. -/
def pyCapitalize (s : String) : String :=
  match s.data with
  | [] => ""
  | c :: cs => String.mk (c.toUpper :: cs.map Char.toLower)

/-! ### app.py: mood tables and the text classifier -/

/-- The feature dictionary of `MOOD_PRESETS` entries (app.py): all keys present,
including the `description` key. -/
structure MoodDict where
  valence : ℚ
  energy : ℚ
  danceability : ℚ
  tempo : ℚ
  description : String
deriving DecidableEq

/-- `MOOD_PRESETS` (app.py), in its insertion order. -/
def MOOD_PRESETS : List (String × MoodDict) :=
  [("Happy", ⟨q08, q07, q07, 120, "Upbeat and joyful vibes"⟩),
   ("Chill", ⟨q05, q03, q04, 90, "Relaxed and mellow tunes"⟩),
   ("Focus", ⟨q04, q04, q03, 100, "Concentration-enhancing beats"⟩),
   ("Sad", ⟨q02, q03, q03, 80, "Melancholic and introspective"⟩),
   ("Hype", ⟨q07, q09, q08, 140, "High-energy pump-up tracks"⟩),
   ("Romantic", ⟨q06, q04, q05, 95, "Love songs and sweet melodies"⟩)]

/-- `MOOD_PRESETS[name]` — the lookup is always performed with a key that is
present, so the junk default is never produced by the classifier. -/
def getPreset (name : String) : MoodDict :=
  ((MOOD_PRESETS.find? (fun p => p.1 == name)).map (·.2)).getD ⟨0, 0, 0, 0, ""⟩

/-- `CHATBOT_MOOD_KEYWORDS` (app.py), in its insertion order. -/
def CHATBOT_MOOD_KEYWORDS : List (String × List String) :=
  [("happy", ["happy", "joyful", "cheerful", "upbeat", "positive", "excited", "fun", "party"]),
   ("chill", ["chill", "relax", "calm", "mellow", "laid back", "easy", "peaceful", "ambient"]),
   ("focus", ["focus", "study", "concentrate", "work", "productivity", "coding", "reading"]),
   ("sad", ["sad", "melancholy", "emotional", "cry", "heartbreak", "depressed", "down", "blue"]),
   ("hype", ["hype", "energetic", "workout", "gym", "pump", "intense", "motivate", "power"]),
   ("romantic", ["romantic", "love", "date", "valentine", "couple", "intimate", "sensual"])]

/-- `ACTIVITY_MOOD_MAP` (app.py), in its insertion order. -/
def ACTIVITY_MOOD_MAP : List (String × String) :=
  [("workout", "Hype"), ("gym", "Hype"), ("exercise", "Hype"), ("running", "Hype"),
   ("study", "Focus"), ("work", "Focus"), ("coding", "Focus"), ("reading", "Focus"),
   ("sleep", "Chill"), ("meditate", "Chill"), ("yoga", "Chill"),
   ("party", "Happy"), ("dance", "Happy"), ("celebrate", "Happy"),
   ("date", "Romantic"), ("dinner", "Romantic")]

/-- Step 1 of `parse_mood_from_text` (app.py): the activity loop.  The Python
`for` over the (insertion-ordered) dict returning on the first hit is the
first match of `find?`. -/
def activity_step (lower : String) : Option (String × MoodDict × String) :=
  (ACTIVITY_MOOD_MAP.find? (fun p => strContains lower p.1)).map
    (fun am => (am.2, getPreset am.2, "Perfect for " ++ am.1 ++ "! Setting mood to " ++ am.2 ++ "."))

/-- The `mood_scores` dict of `parse_mood_from_text`: keyword hit counts,
keeping only moods with a positive count, in table order. -/
def mood_scores_of (lower : String) : List (String × ℕ) :=
  CHATBOT_MOOD_KEYWORDS.filterMap (fun p =>
    let score := (p.2.filter (fun k => strContains lower k)).length
    if 0 < score then some (p.1, score) else none)

/-- One comparison step of Python `max(..., key=...)`: a strictly greater
count replaces the current best, ties keep the earlier entry. -/
def pickStep (acc : Option (String × ℕ)) (p : String × ℕ) : Option (String × ℕ) :=
  match acc with
  | none => some p
  | some best => if best.2 < p.2 then some p else some best

/-- Python `max(mood_scores, key=mood_scores.get)`: the first key attaining the
maximal count, in insertion order. -/
def pickBest (scores : List (String × ℕ)) : Option (String × ℕ) :=
  scores.foldl pickStep none

/-- Step 2 of `parse_mood_from_text`: direct mood keywords. -/
def keyword_step (lower : String) : Option (String × MoodDict × String) :=
  (pickBest (mood_scores_of lower)).map (fun best =>
    let mood_name := pyCapitalize best.1
    (mood_name, getPreset mood_name, "Detected " ++ mood_name ++ " mood from your request!"))

/-- Steps 3 and 4 of `parse_mood_from_text`: generic energy adjustments, then
the Happy default. -/
def generic_step (_lower : String) : String × MoodDict × String :=
  if (["more energy", "energetic", "faster", "upbeat"].any (fun w => strContains _lower w)) then
    ("Hype", getPreset "Hype", "You want high energy! Setting to Hype mode.")
  else if (["slower", "calmer", "quieter", "softer"].any (fun w => strContains _lower w)) then
    ("Chill", getPreset "Chill", "You want something calmer! Setting to Chill mode.")
  else
    ("Happy", getPreset "Happy", "No specific mood detected, showing upbeat tracks!")

/-- `parse_mood_from_text` (app.py): lowercase the input, then the four steps
with their early returns. -/
def parse_mood_from_text (user_input : String) : String × MoodDict × String :=
  let lower := pyLower user_input
  match activity_step lower with
  | some r => r
  | none =>
    match keyword_step lower with
    | some r => r
    | none => generic_step lower

/-! ### app.py: score_track_match and filter_tracks_by_mood -/

/-- A candidate track-features dict of `score_track_match` (app.py): every key
may be absent; the `dict.get(key, default)` defaults apply to the candidate. -/
structure TrackFeatDict where
  valence? : Option ℚ
  energy? : Option ℚ
  danceability? : Option ℚ
  tempo? : Option ℚ
deriving DecidableEq

/-- `score_track_match` (app.py, lines 518-541).  `none` models a falsy
(`None` or empty) features object, scored `float('inf')` (here ⊤). -/
def score_track_match (track_features : Option TrackFeatDict) (target_features : MoodDict) :
    WithTop ℚ :=
  match track_features with
  | none => ⊤
  | some f =>
    ((|f.valence?.getD q05 - target_features.valence| * (5 / 2)
      + |f.energy?.getD q05 - target_features.energy| * 2
      + |f.danceability?.getD q05 - target_features.danceability| * (3 / 2)
      + (|f.tempo?.getD 120 - target_features.tempo| / 200) * 1 : ℚ) : WithTop ℚ)

/-- A search-result track as `filter_tracks_by_mood` sees it; the
`features_by_id` lookup of the source is modelled by attaching the features
(or their absence) to the track. -/
structure SearchTrack where
  id : String
  features : Option TrackFeatDict
deriving DecidableEq

/-- `filter_tracks_by_mood` (app.py, lines 544-606): score the tracks that
have features, sort ascending (Python sort is stable; insertion sort here),
take the best `limit`; fall back to the unscored prefix when no features are
available at all. -/
def filter_tracks_by_mood (tracks : List SearchTrack) (mood_features : MoodDict)
    (limit : ℕ) : List SearchTrack :=
  if tracks.isEmpty then []
  else
    let all_features := tracks.filterMap (·.features)
    if all_features.isEmpty then tracks.take limit
    else
      let scored_tracks := tracks.filterMap (fun tr =>
        tr.features.map (fun f => (tr, score_track_match (some f) mood_features)))
      if scored_tracks.isEmpty then tracks.take limit
      else ((List.insertionSort (fun a b => a.2 ≤ b.2) scored_tracks).take limit).map (·.1)

/-! ### service.py: RecommendationService -/

/-- The batching loop `for i in range(0, len(xs), n)` with slices `xs[i:i+n]`,
written with fuel (the list length) so that it computes by kernel reduction.
The fuel is exhausted only on the unreachable `n = 0`. -/
def chunkGo (n : ℕ) : ℕ → List α → List (List α)
  | _, [] => []
  | 0, l => [l]
  | fuel + 1, l => if n = 0 then [l] else l.take n :: chunkGo n fuel (l.drop n)

/-- Split a list into consecutive chunks of size `n` (the last may be short). -/
def chunkList (n : ℕ) (l : List α) : List (List α) :=
  chunkGo n l.length l

/-- `RecommendationService._get_audio_features_safe` (service.py): batches of
100; a failed batch falls back to per-id requests, ids that still fail are
skipped. -/
def get_audio_features_safe (gw : SpotifyGateway) (track_ids : List String) :
    List AudioFeatures :=
  ((chunkList 100 track_ids).map (fun batch =>
    match gw.audio_features batch with
    | some batch_features => batch_features
    | none => batch.flatMap (fun tid => (gw.audio_features [tid]).getD []))).flatten

/-- `RecommendationService._score_tracks_by_mood` (service.py): score each
track, sort ascending by score (stable). -/
def score_tracks_by_mood (audio_features : List AudioFeatures) (target_features : FeatDict) :
    List (String × ℚ) :=
  List.insertionSort (fun a b => a.2 ≤ b.2)
    (audio_features.map (fun f => (f.track_id, f.calculate_mood_score target_features)))

/-- `RecommendationService._get_tracks_in_batches` (service.py): batches of 50,
failed batches skipped. -/
def get_tracks_in_batches (gw : SpotifyGateway) (track_ids : List String) : List Track :=
  ((chunkList 50 track_ids).map (fun batch => (gw.tracks batch).getD [])).flatten

/-- `RecommendationService._recommend_from_library` (service.py).  The
`random.sample` source is injected as the `sample` oracle. -/
def recommend_from_library (gw : SpotifyGateway) (sample : List String → ℕ → List String)
    (mood_preset : MoodPreset) (track_ids : List String) (limit : ℕ) : List Track :=
  let sample_size := min 100 track_ids.length
  let sampled_ids := sample track_ids sample_size
  let audio_features := get_audio_features_safe gw sampled_ids
  if audio_features.isEmpty then []
  else
    let scored_tracks := score_tracks_by_mood audio_features mood_preset.to_dict
    if scored_tracks.isEmpty then []
    else get_tracks_in_batches gw ((scored_tracks.take limit).map (·.1))

/-- The `mood_keywords` table of `_generate_search_queries` (service.py). -/
def mood_keywords : List (String × List String) :=
  [("Happy", ["happy", "upbeat", "cheerful", "positive", "joyful"]),
   ("Chill", ["chill", "relaxed", "mellow", "ambient", "calm"]),
   ("Focus", ["focus", "study", "concentration", "ambient", "instrumental"]),
   ("Sad", ["sad", "melancholy", "emotional", "ballad", "heartbreak"]),
   ("Hype", ["hype", "energetic", "pump", "party", "workout"]),
   ("Romantic", ["romantic", "love", "beautiful", "emotional", "sweet"])]

/-- `RecommendationService._generate_search_queries` (service.py, lines
308-359): primary keyword with the energy-chosen year window, primary keyword
bare, secondary keyword, the lowercased mood name, then the generic last
resort.  The keyword list is never empty, so the `headD` defaults are inert. -/
def generate_search_queries (mood_preset : MoodPreset) : List String :=
  let keywords := ((mood_keywords.find? (fun p => p.1 == mood_preset.name)).map (·.2)).getD ["pop"]
  let year_filter :=
    if q07 < mood_preset.energy then " year:2020-2025"
    else if q04 < mood_preset.energy then " year:2015-2025"
    else " year:2010-2025"
  ([keywords.headD "" ++ year_filter, keywords.headD ""]
    ++ (if 1 < keywords.length then [(keywords.drop 1).headD ""] else [])
    ++ [pyLower mood_preset.name, "top hits 2024"])

/-- The query loop of `RecommendationService._recommend_from_search`
(service.py, lines 289-306): first query whose search yields at least `limit`
tracks wins (truncated to `limit`); a raised search exception (`none`) or an
insufficient result advances to the next query; exhaustion gives `[]`. -/
def try_queries (gw : SpotifyGateway) (limit : ℕ) : List String → List Track
  | [] => []
  | query :: rest =>
    match gw.search query (min (limit * 3) 50) with
    | none => try_queries gw limit rest
    | some tracks =>
      if limit ≤ tracks.length then tracks.take limit else try_queries gw limit rest

/-- `RecommendationService._recommend_from_search` (service.py). -/
def recommend_from_search (gw : SpotifyGateway) (mood_preset : MoodPreset) (limit : ℕ) :
    List Track :=
  try_queries gw limit (generate_search_queries mood_preset)

/-- `RecommendationService.get_mood_recommendations` (service.py, lines
61-115): limit validation (`ValidationError` as `.error`), then the library
strategy when applicable, then the search ladder.  `limit : ℕ`, so `limit < 1`
is `limit = 0`. -/
def get_mood_recommendations (gw : SpotifyGateway) (sample : List String → ℕ → List String)
    (mood_preset : MoodPreset) (limit : ℕ) (use_user_library : Bool)
    (user_track_ids : List String) : Except String (List Track) :=
  if limit < 1 ∨ 50 < limit then .error "Limit must be between 1 and 50"
  else
    let library_tracks :=
      if use_user_library ∧ ¬ user_track_ids.isEmpty ∧ limit ≤ user_track_ids.length then
        recommend_from_library gw sample mood_preset user_track_ids limit
      else []
    if library_tracks.isEmpty then .ok (recommend_from_search gw mood_preset limit)
    else .ok library_tracks

/-- `RecommendationService.create_mood_playlist` (service.py, lines 361-406).
Returns the final playlist together with the trace of batches passed to
`add_tracks_to_playlist` (one entry per gateway append call). -/
def create_mood_playlist (gw : SpotifyGateway) (user_id mood_name : String)
    (tracks : List Track) : Except String (Playlist × List (List String)) :=
  if tracks.isEmpty then .error "Cannot create playlist with no tracks"
  else
    let playlist_name := "Mood2Music – " ++ mood_name
    let description := "Tracks recommended by Mood2Music for " ++ mood_name ++ " mood"
    let playlist := client_create_playlist gw user_id playlist_name description false
    let track_ids := tracks.map (·.track_id)
    let batches := chunkList 100 track_ids
    let final := batches.foldl (fun p batch => { p with track_ids := p.track_ids ++ batch }) playlist
    .ok (final, batches)

/-! ### Helper lemmas about the batching loop -/

theorem chunkGo_flatten (n : ℕ) : ∀ (fuel : ℕ) (l : List α), l.length ≤ fuel →
    (chunkGo n fuel l).flatten = l := by
  intro fuel
  induction fuel with
  | zero =>
    intro l hl
    have h : l = [] := List.length_eq_zero.mp (Nat.le_zero.mp hl)
    subst h
    simp [chunkGo]
  | succ fuel ih =>
    intro l hl
    cases l with
    | nil => simp [chunkGo]
    | cons x xs =>
      by_cases hn : n = 0
      · simp [chunkGo, hn]
      · simp only [chunkGo, if_neg hn, List.flatten_cons]
        rw [ih]
        · exact List.take_append_drop n (x :: xs)
        · rw [List.length_drop]
          simp only [List.length_cons] at hl ⊢
          omega

theorem chunkList_flatten (n : ℕ) (l : List α) : (chunkList n l).flatten = l :=
  chunkGo_flatten n l.length l le_rfl

theorem chunkGo_mem (n : ℕ) (hn : n ≠ 0) : ∀ (fuel : ℕ) (l : List α), l.length ≤ fuel →
    ∀ b ∈ chunkGo n fuel l, b ≠ [] ∧ b.length ≤ n := by
  intro fuel
  induction fuel with
  | zero =>
    intro l hl b hb
    have h : l = [] := List.length_eq_zero.mp (Nat.le_zero.mp hl)
    subst h
    simp [chunkGo] at hb
  | succ fuel ih =>
    intro l hl b hb
    cases l with
    | nil => simp [chunkGo] at hb
    | cons x xs =>
      simp only [chunkGo, if_neg hn, List.mem_cons] at hb
      rcases hb with hb | hb
      · subst hb
        constructor
        · cases n with
          | zero => exact absurd rfl hn
          | succ m => simp
        · exact List.length_take_le n (x :: xs)
      · refine ih ((x :: xs).drop n) ?_ b hb
        rw [List.length_drop]
        simp only [List.length_cons] at hl ⊢
        omega

theorem chunkList_mem (n : ℕ) (hn : n ≠ 0) (l : List α) :
    ∀ b ∈ chunkList n l, b ≠ [] ∧ b.length ≤ n :=
  chunkGo_mem n hn l.length l le_rfl

theorem chunkList_length_150 (l : List α) (hl : l.length = 150) :
    chunkList 100 l = [l.take 100, l.drop 100] := by
  cases l with
  | nil => simp at hl
  | cons x xs =>
    simp only [List.length_cons] at hl
    have hxs : xs.length = 149 := by omega
    unfold chunkList
    rw [show (x :: xs).length = 149 + 1 by simp [hxs]]
    simp only [chunkGo, if_neg (by norm_num : ¬ (100 : ℕ) = 0)]
    have hdlen : ((x :: xs).drop 100).length = 50 := by
      rw [List.length_drop]
      simp [hxs]
    cases hd : (x :: xs).drop 100 with
    | nil => rw [hd] at hdlen; simp at hdlen
    | cons y ys =>
      rw [hd] at hdlen
      have h149 : (149 : ℕ) = 148 + 1 := rfl
      rw [h149]
      simp only [chunkGo, if_neg (by norm_num : ¬ (100 : ℕ) = 0)]
      have htake : (y :: ys).take 100 = y :: ys :=
        List.take_of_length_le (by omega)
      have hdrop : (y :: ys).drop 100 = [] :=
        List.drop_eq_nil_of_le (by omega)
      rw [htake, hdrop]
      simp [chunkGo, ← hd]

/-! ### Helper lemmas about the search ladder and batched fetches -/

theorem try_queries_length_le (gw : SpotifyGateway) (limit : ℕ) :
    ∀ qs, (try_queries gw limit qs).length ≤ limit := by
  intro qs
  induction qs with
  | nil => simp [try_queries]
  | cons q rest ih =>
    simp only [try_queries]
    cases gw.search q (min (limit * 3) 50) with
    | none => exact ih
    | some tracks =>
      by_cases h : limit ≤ tracks.length
      · simp only [if_pos h]
        exact List.length_take_le limit tracks
      · simp only [if_neg h]
        exact ih

theorem get_tracks_in_batches_length_le (gw : SpotifyGateway) (hgw : gw.Conforms)
    (ids : List String) : (get_tracks_in_batches gw ids).length ≤ ids.length := by
  unfold get_tracks_in_batches
  rw [List.length_flatten, List.map_map]
  calc ((chunkList 50 ids).map (List.length ∘ fun batch => (gw.tracks batch).getD [])).sum
      ≤ ((chunkList 50 ids).map List.length).sum := by
        refine List.sum_le_sum ?_
        intro b _
        simp only [Function.comp_apply]
        cases h : gw.tracks b with
        | none => simp
        | some ts => simpa using hgw b ts h
    _ = ids.length := by rw [← List.length_flatten, chunkList_flatten]

theorem recommend_from_library_length_le (gw : SpotifyGateway) (hgw : gw.Conforms)
    (sample : List String → ℕ → List String) (p : MoodPreset) (ids : List String) (limit : ℕ) :
    (recommend_from_library gw sample p ids limit).length ≤ limit := by
  simp only [recommend_from_library]
  split
  · simp
  · split
    · simp
    · refine le_trans (get_tracks_in_batches_length_le gw hgw _) ?_
      rw [List.length_map]
      exact List.length_take_le _ _

/-! ### Helper lemmas about filter_tracks_by_mood -/

theorem filter_tracks_subset (tracks : List SearchTrack) (t : MoodDict) (limit : ℕ) :
    ∀ tr ∈ filter_tracks_by_mood tracks t limit, tr ∈ tracks := by
  intro tr htr
  simp only [filter_tracks_by_mood] at htr
  split at htr
  · simp at htr
  · split at htr
    · exact (List.take_sublist limit tracks).subset htr
    · split at htr
      · exact (List.take_sublist limit tracks).subset htr
      · obtain ⟨pair, hpair, rfl⟩ := List.mem_map.mp htr
        have h1 : pair ∈ List.insertionSort
            (fun a b : SearchTrack × WithTop ℚ => a.2 ≤ b.2)
            (tracks.filterMap (fun tr =>
              tr.features.map (fun f => (tr, score_track_match (some f) t)))) :=
          (List.take_sublist limit _).subset hpair
        have h2 := (List.perm_insertionSort
          (fun a b : SearchTrack × WithTop ℚ => a.2 ≤ b.2) _).subset h1
        obtain ⟨a, ha, heq⟩ := List.mem_filterMap.mp h2
        obtain ⟨f, _, hfe⟩ := Option.map_eq_some'.mp heq
        rw [← hfe]
        exact ha

theorem filter_tracks_isSome (tracks : List SearchTrack) (t : MoodDict) (limit : ℕ)
    (hex : ∃ a ∈ tracks, a.features.isSome) :
    ∀ tr ∈ filter_tracks_by_mood tracks t limit, tr.features.isSome := by
  intro tr htr
  obtain ⟨a, ha, hfa⟩ := hex
  obtain ⟨fa, hfa2⟩ := Option.isSome_iff_exists.mp hfa
  have hne : ¬ tracks.isEmpty = true := by
    cases tracks with
    | nil => simp at ha
    | cons x xs => simp
  have hall : ¬ (tracks.filterMap (·.features)).isEmpty = true := by
    rw [List.isEmpty_iff, List.filterMap_eq_nil_iff]
    intro hcon
    rw [hcon a ha] at hfa2
    exact Option.noConfusion hfa2
  have hscored : ¬ (tracks.filterMap (fun tr =>
      tr.features.map (fun f => (tr, score_track_match (some f) t)))).isEmpty = true := by
    rw [List.isEmpty_iff, List.filterMap_eq_nil_iff]
    intro hcon
    have := hcon a ha
    rw [hfa2] at this
    exact Option.noConfusion this
  simp only [filter_tracks_by_mood] at htr
  rw [if_neg hne, if_neg hall, if_neg hscored] at htr
  obtain ⟨pair, hpair, rfl⟩ := List.mem_map.mp htr
  have h1 : pair ∈ List.insertionSort
      (fun a b : SearchTrack × WithTop ℚ => a.2 ≤ b.2)
      (tracks.filterMap (fun tr =>
        tr.features.map (fun f => (tr, score_track_match (some f) t)))) :=
    (List.take_sublist limit _).subset hpair
  have h2 := (List.perm_insertionSort
    (fun a b : SearchTrack × WithTop ℚ => a.2 ≤ b.2) _).subset h1
  obtain ⟨b, _, heq⟩ := List.mem_filterMap.mp h2
  obtain ⟨f, hbf, hfe⟩ := Option.map_eq_some'.mp heq
  rw [← hfe]
  simp [hbf]

theorem filter_tracks_limit_zero (tracks : List SearchTrack) (t : MoodDict) :
    filter_tracks_by_mood tracks t 0 = [] := by
  simp [filter_tracks_by_mood]

/-! ### Concrete test fixtures -/

/-- A minimal concrete track used in concrete instantiations. -/
def trackT : Track := ⟨"t", "Song", ["Artist"]⟩
/-- Concrete track A. -/
def trackA : Track := ⟨"A", "Track A", ["Artist"]⟩
/-- Concrete track B. -/
def trackB : Track := ⟨"B", "Track B", ["Artist"]⟩
/-- Concrete track C. -/
def trackC : Track := ⟨"C", "Track C", ["Artist"]⟩

/-- A trivial gateway: every call succeeds with an empty result. -/
def gwEmpty : SpotifyGateway :=
  { audio_features := fun _ => some []
    tracks := fun _ => some []
    search := fun _ _ => some []
    playlist_create := fun _ _ _ _ => ⟨"pl1", "pl", none⟩ }

/-- A gateway whose first Happy query returns a single track and whose other
queries return two tracks. -/
def gwLadder : SpotifyGateway :=
  { audio_features := fun _ => none
    tracks := fun _ => none
    search := fun query _ =>
      if query == "happy year:2015-2025" then some [trackA] else some [trackB, trackC]
    playlist_create := fun _ _ _ _ => ⟨"pl1", "pl", none⟩ }

/-- A deterministic stand-in for `random.sample`: the identity order. -/
def sampleId : List String → ℕ → List String := fun ids n => ids.take n

/-- A raw audio-features entry with every key absent. -/
def rawEmpty : RawAudioFeatures := ⟨none, none, none, none, none⟩

/-- A complete candidate feature dict at the neutral midpoints. -/
def candMid : TrackFeatDict := ⟨some q05, some q05, some q05, some 120⟩

/-- A search-result track that has features. -/
def strackA : SearchTrack := ⟨"a", some candMid⟩
/-- A search-result track without features. -/
def strackB : SearchTrack := ⟨"b", none⟩

/-! ### The claims -/

/-- C1: the feature scorer is the sum of weighted absolute differences between
candidate and target — valence ×2.0 (×2.5 in the stricter `score_track_match`
variant), energy ×1.5 (×2.0), danceability ×1.5, tempo difference ÷100 (÷200)
with weight 1.0 — and a candidate missing any of the four fields has the
missing field defaulted to the neutral midpoint (0.5 resp. 120): in
`score_track_match` via `dict.get` on the candidate, in the
`calculate_mood_score` pipeline via the client's parsing defaults; a partial
candidate never fails (its score is never ⊤). -/
theorem C1_scorer_weighted_defaults :
    (q05 = 1 / 2)
    ∧ (∀ (c : TrackFeatDict) (t : MoodDict),
      score_track_match (some c) t =
        ((|c.valence?.getD q05 - t.valence| * (5 / 2)
          + |c.energy?.getD q05 - t.energy| * 2
          + |c.danceability?.getD q05 - t.danceability| * (3 / 2)
          + (|c.tempo?.getD 120 - t.tempo| / 200) * 1 : ℚ) : WithTop ℚ)
      ∧ score_track_match (some c) t ≠ ⊤)
    ∧ (∀ (raw : RawAudioFeatures) (p : MoodPreset) (f : AudioFeatures),
        parse_audio_features raw = .ok f →
        f.calculate_mood_score p.to_dict =
          |raw.valence?.getD q05 - p.valence| * 2
          + |raw.energy?.getD q05 - p.energy| * (3 / 2)
          + |raw.danceability?.getD q05 - p.danceability| * (3 / 2)
          + |raw.tempo?.getD 120 - p.tempo| / 100)
    ∧ (∀ idOpt : Option String,
        parse_audio_features ⟨idOpt, none, none, none, none⟩ =
          .ok ⟨idOpt.getD "", q05, q05, q05, 120⟩) := by
  refine ⟨by norm_num [q05, Rat.mk'_eq_divInt, Rat.divInt_eq_div], fun c t => ⟨rfl, WithTop.coe_ne_top⟩, ?_, ?_⟩
  · intro raw p f h
    simp only [parse_audio_features, AudioFeatures.make] at h
    split_ifs at h with h1 h2 h3
    all_goals
      first
      | exact Except.noConfusion h
      | (simp only [Except.ok.injEq] at h
         subst h
         rfl)
  · intro idOpt
    have hv : ((0 : ℚ) ≤ q05 ∧ q05 ≤ 1) := by decide
    simp [parse_audio_features, AudioFeatures.make, hv]

/-- Witness for C1 at the all-fields-missing candidate and the Hype target. -/
theorem C1_scorer_witness :
    AudioFeatures.calculate_mood_score ⟨"", q05, q05, q05, 120⟩ hypePreset.to_dict =
      |rawEmpty.valence?.getD q05 - hypePreset.valence| * 2
      + |rawEmpty.energy?.getD q05 - hypePreset.energy| * (3 / 2)
      + |rawEmpty.danceability?.getD q05 - hypePreset.danceability| * (3 / 2)
      + |rawEmpty.tempo?.getD 120 - hypePreset.tempo| / 100 :=
  C1_scorer_weighted_defaults.2.2.1 rawEmpty hypePreset ⟨"", q05, q05, q05, 120⟩ rfl

/-- C2: scoring a `None`/absent candidate returns +infinity (⊤); whenever at
least `limit` candidates with features (hence finite scores) exist, every
ranked output entry has features; and in the ranked output an infinite-score
entry never precedes a finite-score one (an entry after an infinite-score
entry is itself infinite). -/
theorem C2_infinite_never_outranks :
    (∀ t : MoodDict, score_track_match none t = ⊤)
    ∧ (∀ (tracks : List SearchTrack) (t : MoodDict) (limit : ℕ),
        limit ≤ (tracks.filter (fun tr => tr.features.isSome)).length →
        ∀ tr ∈ filter_tracks_by_mood tracks t limit, tr.features.isSome)
    ∧ (∀ (tracks : List SearchTrack) (t : MoodDict) (limit : ℕ)
        (i j : ℕ) (hi : i < (filter_tracks_by_mood tracks t limit).length)
        (hj : j < (filter_tracks_by_mood tracks t limit).length), i < j →
        score_track_match (filter_tracks_by_mood tracks t limit)[i].features t = ⊤ →
        score_track_match (filter_tracks_by_mood tracks t limit)[j].features t = ⊤) := by
  refine ⟨fun t => rfl, ?_, ?_⟩
  · intro tracks t limit hcount tr htr
    by_cases hex : ∃ a ∈ tracks, a.features.isSome
    · exact filter_tracks_isSome tracks t limit hex tr htr
    · push_neg at hex
      have hcount0 : (tracks.filter (fun tr => tr.features.isSome)).length = 0 := by
        rw [List.length_eq_zero, List.filter_eq_nil_iff]
        intro a ha
        simpa using hex a ha
      have hlim : limit = 0 := by omega
      subst hlim
      rw [filter_tracks_limit_zero] at htr
      simp at htr
  · intro tracks t limit i j hi hj _ htop
    by_cases hex : ∃ a ∈ tracks, a.features.isSome
    · have hsome := filter_tracks_isSome tracks t limit hex _ (List.getElem_mem hi)
      obtain ⟨f, hf⟩ := Option.isSome_iff_exists.mp hsome
      rw [hf] at htop
      simp only [score_track_match] at htop
      exact absurd htop WithTop.coe_ne_top
    · push_neg at hex
      have hmem := filter_tracks_subset tracks t limit _ (List.getElem_mem hj)
      have hnone : (filter_tracks_by_mood tracks t limit)[j].features = none := by
        have h2 := hex _ hmem
        cases hfe : (filter_tracks_by_mood tracks t limit)[j].features with
        | none => rfl
        | some f => rw [hfe] at h2; simp at h2
      rw [hnone]
      rfl

/-- Witness for C2 on a two-candidate pool with one featureless candidate. -/
theorem C2_infinite_witness :
    score_track_match none (getPreset "Happy") = ⊤
    ∧ 1 ≤ ([strackA, strackB].filter (fun tr => tr.features.isSome)).length
    ∧ ∀ tr ∈ filter_tracks_by_mood [strackA, strackB] (getPreset "Happy") 1,
        tr.features.isSome :=
  ⟨C2_infinite_never_outranks.1 (getPreset "Happy"), by decide,
   C2_infinite_never_outranks.2.1 [strackA, strackB] (getPreset "Happy") 1 (by decide)⟩

/-- C3 counterexample: with `limit = 2`, the first query of the Happy ladder
returns one (non-empty!) result, yet the orchestrator does not return it —
the second query's two tracks are returned instead, because
`_recommend_from_search` requires `len(tracks) >= limit`, not non-emptiness. -/
theorem C3_counterexample :
    gwLadder.search "happy year:2015-2025" (min (2 * 3) 50) = some [trackA]
    ∧ [trackA] ≠ ([] : List Track)
    ∧ recommend_from_search gwLadder happyPreset 2 = [trackB, trackC]
    ∧ recommend_from_search gwLadder happyPreset 2 ≠ [trackA].take 2 := by
  refine ⟨by decide, by decide, by decide, by decide⟩

/-- C3 (amended): the orchestrator attempts its queries in the documented
order, but a strategy succeeds only when its attempt yields at least `limit`
tracks (not merely a non-empty result): the first query whose search returns
at least `limit` tracks has its tracks (truncated to `limit`) returned and no
later query is consulted; an attempt that raises, or that returns fewer than
`limit` tracks, advances the ladder. -/
theorem C3_first_sufficient_success_wins :
    (∀ (gw : SpotifyGateway) (p : MoodPreset) (limit : ℕ),
      recommend_from_search gw p limit = try_queries gw limit (generate_search_queries p))
    ∧ (∀ (gw : SpotifyGateway) (limit : ℕ) (query : String) (rest : List String)
        (ts : List Track),
        gw.search query (min (limit * 3) 50) = some ts → limit ≤ ts.length →
        try_queries gw limit (query :: rest) = ts.take limit)
    ∧ (∀ (gw : SpotifyGateway) (limit : ℕ) (query : String) (rest : List String),
        gw.search query (min (limit * 3) 50) = none →
        try_queries gw limit (query :: rest) = try_queries gw limit rest)
    ∧ (∀ (gw : SpotifyGateway) (limit : ℕ) (query : String) (rest : List String)
        (ts : List Track),
        gw.search query (min (limit * 3) 50) = some ts → ts.length < limit →
        try_queries gw limit (query :: rest) = try_queries gw limit rest)
    ∧ generate_search_queries happyPreset =
        ["happy year:2015-2025", "happy", "upbeat", "happy", "top hits 2024"] := by
  refine ⟨fun gw p limit => rfl, ?_, ?_, ?_, by decide⟩
  · intro gw limit query rest ts hs hlen
    simp only [try_queries, hs]
    rw [if_pos hlen]
  · intro gw limit query rest hs
    simp only [try_queries, hs]
  · intro gw limit query rest ts hs hlen
    simp only [try_queries, hs]
    rw [if_neg (by omega)]

/-- Witness for C3 (amended) at the second Happy query of `gwLadder`. -/
theorem C3_success_witness :
    try_queries gwLadder 2 ["happy", "top hits 2024"] = [trackB, trackC].take 2 :=
  C3_first_sufficient_success_wins.2.1 gwLadder 2 "happy" ["top hits 2024"]
    [trackB, trackC] (by decide) (by decide)

/-- The hypothesis of C4: every search query yields zero results (or raises),
and so does every audio-features request. -/
def AllSearchesEmpty (gw : SpotifyGateway) : Prop :=
  (∀ q n, gw.search q n = some [] ∨ gw.search q n = none)
  ∧ (∀ b, gw.audio_features b = some [] ∨ gw.audio_features b = none)

theorem try_queries_all_empty (gw : SpotifyGateway) (limit : ℕ)
    (h : ∀ q n, gw.search q n = some [] ∨ gw.search q n = none) :
    ∀ qs, try_queries gw limit qs = [] := by
  intro qs
  induction qs with
  | nil => rfl
  | cons q rest ih =>
    rcases h q (min (limit * 3) 50) with hq | hq
    · simp only [try_queries, hq]
      by_cases hl : limit ≤ ([] : List Track).length
      · rw [if_pos hl]
        simp
      · rw [if_neg hl]
        exact ih
    · simp only [try_queries, hq]
      exact ih

theorem get_audio_features_safe_all_empty (gw : SpotifyGateway)
    (h : ∀ b, gw.audio_features b = some [] ∨ gw.audio_features b = none)
    (ids : List String) : get_audio_features_safe gw ids = [] := by
  unfold get_audio_features_safe
  rw [List.flatten_eq_nil_iff]
  intro l hl
  obtain ⟨batch, _, hbatch⟩ := List.mem_map.mp hl
  rcases h batch with hb | hb
  · rw [hb] at hbatch
    exact hbatch.symm
  · rw [hb] at hbatch
    rw [← hbatch]
    rw [List.flatMap_eq_nil_iff]
    intro tid _
    rcases h [tid] with ht | ht <;> simp [ht]

/-- C4: when every fallback strategy yields nothing — in particular when the
search gateway returns zero results (or raises) for every query variant —
the search ladder returns `[]` and `get_mood_recommendations` returns
`Except.ok []`: the empty result is a normal outcome, not an error. -/
theorem C4_all_empty_is_ok :
    ∀ (gw : SpotifyGateway) (sample : List String → ℕ → List String) (p : MoodPreset)
      (limit : ℕ) (uul : Bool) (ids : List String),
      AllSearchesEmpty gw → ¬ (limit < 1 ∨ 50 < limit) →
      recommend_from_search gw p limit = []
      ∧ get_mood_recommendations gw sample p limit uul ids = .ok [] := by
  intro gw sample p limit uul ids hgw hlim
  have hsearch : recommend_from_search gw p limit = [] :=
    try_queries_all_empty gw limit hgw.1 (generate_search_queries p)
  refine ⟨hsearch, ?_⟩
  simp only [get_mood_recommendations, if_neg hlim]
  have hlib : (if uul ∧ ¬ ids.isEmpty = true ∧ limit ≤ ids.length then
      recommend_from_library gw sample p ids limit else []) = [] := by
    split
    · simp only [recommend_from_library]
      rw [get_audio_features_safe_all_empty gw hgw.2]
      simp
    · rfl
  rw [hlib]
  simp [hsearch]

/-- Witness for C4 on the all-empty gateway. -/
theorem C4_empty_witness :
    get_mood_recommendations gwEmpty sampleId happyPreset 10 false [] = .ok [] :=
  (C4_all_empty_is_ok gwEmpty sampleId happyPreset 10 false []
    ⟨fun _ _ => Or.inl rfl, fun _ => Or.inl rfl⟩ (by decide)).2

/-- C5: the playlist exporter fails with a `ValidationError` on an empty track
list (before any gateway call, so no playlist is created), and for a non-empty
list appends the track ids in batches of at most 100 per gateway call whose
concatenation is exactly the input ids; exporting exactly 150 tracks makes
exactly 2 append calls, of 100 and 50 tracks. -/
theorem C5_exporter_validates_and_batches :
    ∀ (gw : SpotifyGateway) (user_id mood_name : String) (tracks : List Track),
      (tracks = [] →
        create_mood_playlist gw user_id mood_name tracks =
          .error "Cannot create playlist with no tracks")
      ∧ (∀ p batches, create_mood_playlist gw user_id mood_name tracks = .ok (p, batches) →
          (∀ b ∈ batches, b ≠ [] ∧ b.length ≤ 100)
          ∧ batches.flatten = tracks.map (·.track_id)
          ∧ (tracks.length = 150 → batches.map List.length = [100, 50])) := by
  intro gw user_id mood_name tracks
  constructor
  · intro h
    subst h
    rfl
  · intro p batches h
    have hne : ¬ tracks.isEmpty = true := by
      intro hcon
      rw [List.isEmpty_iff] at hcon
      subst hcon
      exact Except.noConfusion h
    simp only [create_mood_playlist, if_neg hne, Except.ok.injEq, Prod.mk.injEq] at h
    obtain ⟨-, hb⟩ := h
    subst hb
    refine ⟨chunkList_mem 100 (by norm_num) _, chunkList_flatten 100 _, ?_⟩
    intro h150
    have hlen : (tracks.map (·.track_id)).length = 150 := by
      rw [List.length_map]
      exact h150
    rw [chunkList_length_150 _ hlen]
    simp only [List.map_cons, List.map_nil, List.length_take, List.length_drop, hlen]
    norm_num

set_option maxRecDepth 4000 in
/-- Witness for C5: exporting 150 copies of a track makes exactly the two
append calls 100 + 50. -/
theorem C5_exporter_witness :
    List.replicate 150 trackT ≠ [] ∧
    (chunkList 100 ((List.replicate 150 trackT).map (·.track_id))).map List.length
      = [100, 50] := by
  refine ⟨by decide, ?_⟩
  have h := (C5_exporter_validates_and_batches gwEmpty "user1" "Happy"
    (List.replicate 150 trackT)).2 _ _ rfl
  exact h.2.2 (by decide)

/-! ### Helper lemmas for the classifier -/

theorem foldl_pickStep_mem (l : List (String × ℕ)) :
    ∀ (acc : Option (String × ℕ)) (p : String × ℕ),
      l.foldl pickStep acc = some p → acc = some p ∨ p ∈ l := by
  induction l with
  | nil =>
    intro acc p h
    exact Or.inl h
  | cons x xs ih =>
    intro acc p h
    simp only [List.foldl_cons] at h
    rcases ih (pickStep acc x) p h with h2 | h2
    · cases acc with
      | none =>
        simp only [pickStep, Option.some.injEq] at h2
        exact Or.inr (by rw [← h2]; exact List.mem_cons_self x xs)
      | some best =>
        simp only [pickStep] at h2
        by_cases hlt : best.2 < x.2
        · rw [if_pos hlt] at h2
          simp only [Option.some.injEq] at h2
          exact Or.inr (by rw [← h2]; exact List.mem_cons_self x xs)
        · rw [if_neg hlt] at h2
          exact Or.inl h2
    · exact Or.inr (List.mem_cons_of_mem x h2)

theorem pickBest_mem (scores : List (String × ℕ)) (p : String × ℕ)
    (h : pickBest scores = some p) : p ∈ scores := by
  rcases foldl_pickStep_mem scores none p h with h2 | h2
  · exact Option.noConfusion h2
  · exact h2

theorem mood_scores_keys (lower : String) :
    ∀ p ∈ mood_scores_of lower, p.1 ∈ CHATBOT_MOOD_KEYWORDS.map (·.1) := by
  intro p hp
  obtain ⟨a, ha, hfa⟩ := List.mem_filterMap.mp hp
  simp only [mood_scores_of] at hfa
  split_ifs at hfa
  all_goals
    first
    | exact Option.noConfusion hfa
    | (simp only [Option.some.injEq] at hfa
       rw [← hfa]
       exact List.mem_map.mpr ⟨a, ha, rfl⟩)

/-- C6: the classifier runs the activity lookup before the mood-keyword lookup:
whenever some activity word of the table is contained (case-insensitively) in
the text, the first such entry (in table iteration order, which is what
`find?` returns) alone determines the mood, whatever other mood keywords are
present; in particular "I need workout music" classifies to Hype and
"something chill to study to" resolves through the activity table to Focus
despite the "chill" keyword. -/
theorem C6_activity_lookup_first :
    (∀ (input : String) (am : String × String),
      ACTIVITY_MOOD_MAP.find? (fun p => strContains (pyLower input) p.1) = some am →
      (parse_mood_from_text input).1 = am.2
      ∧ (parse_mood_from_text input).2.1 = getPreset am.2)
    ∧ (parse_mood_from_text "I need workout music").1 = "Hype"
    ∧ (parse_mood_from_text "something chill to study to").1 = "Focus" := by
  refine ⟨?_, by decide, by decide⟩
  intro input am h
  have ha : activity_step (pyLower input) = some (am.2, getPreset am.2,
      "Perfect for " ++ am.1 ++ "! Setting mood to " ++ am.2 ++ ".") := by
    simp only [activity_step, h, Option.map_some']
  simp [parse_mood_from_text, ha]

/-- Witness for C6 at "I need workout music", whose first contained activity
is ("workout", "Hype"). -/
theorem C6_activity_witness :
    (parse_mood_from_text "I need workout music").1 = "Hype"
    ∧ (parse_mood_from_text "I need workout music").2.1 = getPreset "Hype" :=
  C6_activity_lookup_first.1 "I need workout music" ("workout", "Hype") (by decide)

/-- C7: the classifier is total: every input yields one of the six catalogued
mood names, a name present in `MOOD_PRESETS`, and the returned feature dict is
exactly that mood's preset; the no-match input "asdfqwerty" defaults to Happy
with the no-mood-detected explanation. -/
theorem C7_classifier_total :
    (∀ input : String,
      (parse_mood_from_text input).1 ∈
          (["Happy", "Chill", "Focus", "Sad", "Hype", "Romantic"] : List String)
      ∧ (MOOD_PRESETS.find? (fun p => p.1 == (parse_mood_from_text input).1)).isSome
      ∧ (parse_mood_from_text input).2.1 = getPreset (parse_mood_from_text input).1)
    ∧ parse_mood_from_text "asdfqwerty" =
        ("Happy", getPreset "Happy", "No specific mood detected, showing upbeat tracks!") := by
  have hnames : ∀ name ∈ (["Happy", "Chill", "Focus", "Sad", "Hype", "Romantic"] : List String),
      (MOOD_PRESETS.find? (fun p => p.1 == name)).isSome := by decide
  refine ⟨?_, by decide⟩
  intro input
  have key : (parse_mood_from_text input).1 ∈
      (["Happy", "Chill", "Focus", "Sad", "Hype", "Romantic"] : List String)
      ∧ (parse_mood_from_text input).2.1 = getPreset (parse_mood_from_text input).1 := by
    cases ha : activity_step (pyLower input) with
    | some r =>
      have ha2 := ha
      simp only [activity_step] at ha2
      obtain ⟨am, ham, hr⟩ := Option.map_eq_some'.mp ha2
      have ham2 : am ∈ ACTIVITY_MOOD_MAP := List.mem_of_find?_eq_some ham
      have hval : am.2 ∈ (["Happy", "Chill", "Focus", "Sad", "Hype", "Romantic"] : List String) := by
        have hall : ∀ x ∈ ACTIVITY_MOOD_MAP,
            x.2 ∈ (["Happy", "Chill", "Focus", "Sad", "Hype", "Romantic"] : List String) := by
          decide
        exact hall am ham2
      simp only [parse_mood_from_text, ha]
      rw [← hr]
      exact ⟨hval, rfl⟩
    | none =>
      cases hk : keyword_step (pyLower input) with
      | some r =>
        have hk2 := hk
        simp only [keyword_step] at hk2
        obtain ⟨best, hbest, hr⟩ := Option.map_eq_some'.mp hk2
        have hmem := pickBest_mem _ _ hbest
        have hkey := mood_scores_keys (pyLower input) best hmem
        have hcap : pyCapitalize best.1 ∈
            (["Happy", "Chill", "Focus", "Sad", "Hype", "Romantic"] : List String) := by
          have hall : ∀ k ∈ CHATBOT_MOOD_KEYWORDS.map (·.1), pyCapitalize k ∈
              (["Happy", "Chill", "Focus", "Sad", "Hype", "Romantic"] : List String) := by
            decide
          exact hall best.1 hkey
        simp only [parse_mood_from_text, ha, hk]
        rw [← hr]
        exact ⟨hcap, rfl⟩
      | none =>
        simp only [parse_mood_from_text, ha, hk, generic_step]
        split_ifs <;> exact ⟨by decide, rfl⟩
  exact ⟨key.1, hnames _ key.1, key.2⟩

/-- C8: a limit outside 1..50 fails with the `ValidationError` message before
any strategy runs; a limit within 1..50, against a conforming gateway, always
yields a track list of length at most `limit`. -/
theorem C8_limit_contract :
    ∀ (gw : SpotifyGateway) (sample : List String → ℕ → List String) (p : MoodPreset)
      (limit : ℕ) (uul : Bool) (ids : List String),
      ((limit < 1 ∨ 50 < limit) →
        get_mood_recommendations gw sample p limit uul ids =
          .error "Limit must be between 1 and 50")
      ∧ (¬ (limit < 1 ∨ 50 < limit) → gw.Conforms →
          ∃ ts, get_mood_recommendations gw sample p limit uul ids = .ok ts
            ∧ ts.length ≤ limit) := by
  intro gw sample p limit uul ids
  constructor
  · intro h
    simp only [get_mood_recommendations, if_pos h]
  · intro hlim hgw
    simp only [get_mood_recommendations, if_neg hlim]
    set lib := (if uul = true ∧ ¬ ids.isEmpty = true ∧ limit ≤ ids.length then
      recommend_from_library gw sample p ids limit else []) with hlib
    by_cases hle : lib.isEmpty = true
    · rw [if_pos hle]
      exact ⟨_, rfl, try_queries_length_le gw limit (generate_search_queries p)⟩
    · rw [if_neg hle]
      refine ⟨lib, rfl, ?_⟩
      rw [hlib]
      split
      · exact recommend_from_library_length_le gw hgw sample p ids limit
      · simp

/-- Witness for C8 at limit 10 on the trivial conforming gateway. -/
theorem C8_limit_witness :
    ∃ ts, get_mood_recommendations gwEmpty sampleId happyPreset 10 false [] = .ok ts
      ∧ ts.length ≤ 10 :=
  (C8_limit_contract gwEmpty sampleId happyPreset 10 false []).2 (by decide)
    (fun ids ts h => by
      have h2 : some ([] : List Track) = some ts := h
      injection h2 with h3
      rw [← h3]
      simp)

/-- C9 counterexample: exporting the same track twice produces a playlist
whose `track_ids` list `["t", "t"]` has a duplicate — the exporter's batched
appends use a raw `extend`, not the deduplicating `add_track`, so they do not
preserve the no-duplicates invariant. -/
theorem C9_counterexample :
    (create_mood_playlist gwEmpty "user1" "Happy" [trackT, trackT]).toOption.map
      (fun r => r.1.track_ids) = some ["t", "t"]
    ∧ ¬ (["t", "t"] : List String).Nodup := by
  exact ⟨by decide, by decide⟩

theorem foldl_append_track_ids (batches : List (List String)) :
    ∀ pl : Playlist,
      (batches.foldl (fun p batch => { p with track_ids := p.track_ids ++ batch }) pl).track_ids
        = pl.track_ids ++ batches.flatten := by
  induction batches with
  | nil =>
    intro pl
    simp
  | cons b bs ih =>
    intro pl
    simp only [List.foldl_cons, List.flatten_cons]
    rw [ih]
    simp [List.append_assoc]

/-- C9 (amended): `Playlist.add_track` preserves the no-duplicates invariant
of `track_ids`, but the exporter's batched appends extend `track_ids`
verbatim: since the created playlist starts with empty `track_ids`, the
exported playlist is duplicate-free exactly when the exported track list's ids
are — duplicate input ids yield duplicate `track_ids` (see the
counterexample). -/
theorem C9_nodup_amended :
    (∀ (p : Playlist) (tid : String), p.track_ids.Nodup → (p.add_track tid).track_ids.Nodup)
    ∧ (∀ (gw : SpotifyGateway) (uid mood : String) (tracks : List Track)
        (p : Playlist) (batches : List (List String)),
        create_mood_playlist gw uid mood tracks = .ok (p, batches) →
        (tracks.map (·.track_id)).Nodup → p.track_ids.Nodup) := by
  constructor
  · intro p tid hnd
    unfold Playlist.add_track
    split
    · exact hnd
    · rename_i hmem
      simp [List.nodup_append, hnd, hmem]
  · intro gw uid mood tracks p batches h hnd
    have hne : ¬ tracks.isEmpty = true := by
      intro hcon
      rw [List.isEmpty_iff] at hcon
      subst hcon
      exact Except.noConfusion h
    simp only [create_mood_playlist, if_neg hne, Except.ok.injEq, Prod.mk.injEq] at h
    obtain ⟨hp, -⟩ := h
    rw [← hp, foldl_append_track_ids]
    simp only [client_create_playlist]
    rw [List.nil_append, chunkList_flatten]
    exact hnd

/-- Witness for C9 (amended): a one-track export yields duplicate-free ids. -/
theorem C9_nodup_witness :
    (match create_mood_playlist gwEmpty "user1" "Happy" [trackT] with
      | .ok r => r.1.track_ids.Nodup
      | .error _ => False) :=
  C9_nodup_amended.2 gwEmpty "user1" "Happy" [trackT] _ _ rfl (by decide)

/-- C10: `AudioFeatures` construction succeeds exactly when valence, energy
and danceability lie in [0,1] — tempo is not constrained: a negative tempo is
accepted and flows unchecked into `calculate_mood_score` (scoring −50 BPM
against the Happy preset gives 2.9). -/
theorem C10_tempo_unchecked :
    (∀ (tid : String) (v e d t : ℚ),
      (∃ f, AudioFeatures.make tid v e d t = .ok f) ↔
        ((0 ≤ v ∧ v ≤ 1) ∧ (0 ≤ e ∧ e ≤ 1) ∧ (0 ≤ d ∧ d ≤ 1)))
    ∧ (∀ (tid : String) (v e d t : ℚ) (f : AudioFeatures),
        AudioFeatures.make tid v e d t = .ok f → f = ⟨tid, v, e, d, t⟩)
    ∧ AudioFeatures.make "x" q05 q05 q05 (-50) = .ok ⟨"x", q05, q05, q05, -50⟩
    ∧ AudioFeatures.calculate_mood_score ⟨"x", q05, q05, q05, -50⟩ happyPreset.to_dict
        = 29 / 10 := by
  refine ⟨?_, ?_, rfl, ?_⟩
  · intro tid v e d t
    constructor
    · rintro ⟨f, hf⟩
      simp only [AudioFeatures.make] at hf
      split_ifs at hf with h1 h2 h3
      all_goals first
        | exact Except.noConfusion hf
        | exact ⟨h1, h2, h3⟩
    · rintro ⟨hv, he, hd⟩
      refine ⟨⟨tid, v, e, d, t⟩, ?_⟩
      simp [AudioFeatures.make, hv, he, hd]
  · intro tid v e d t f hf
    simp only [AudioFeatures.make] at hf
    split_ifs at hf with h1 h2 h3
    all_goals first
      | exact Except.noConfusion hf
      | (simp only [Except.ok.injEq] at hf
         exact hf.symm)
  · have h05 : q05 = 1 / 2 := by norm_num [q05, Rat.mk'_eq_divInt, Rat.divInt_eq_div]
    have h08 : q08 = 8 / 10 := by norm_num [q08, Rat.mk'_eq_divInt, Rat.divInt_eq_div]
    have h07 : q07 = 7 / 10 := by norm_num [q07, Rat.mk'_eq_divInt, Rat.divInt_eq_div]
    simp only [AudioFeatures.calculate_mood_score, MoodPreset.to_dict, happyPreset,
      Option.getD_some]
    rw [h05, h08, h07]
    norm_num [abs]

/-- Witness for C10: a negative-tempo construction succeeds. -/
theorem C10_tempo_witness : ∃ f, AudioFeatures.make "x" q05 q05 q05 (-50) = .ok f :=
  (C10_tempo_unchecked.1 "x" q05 q05 q05 (-50)).mpr (by decide)

end MoodRec
